import Mathlib

/-
Verification development for the airdrop-backend claim service
(`src/main.py`).  The claim endpoint `claim_airdrop` is embedded as a
pure Lean function over an explicit environment:

* the Firestore collection "airdrops" becomes an association-list store
  keyed by the authenticated uid;
* the Solana RPC client becomes a `LedgerOracle` record holding the
  response of each RPC call the gateway supports (a `none` response
  models a transport failure, which in the Python source propagates as
  an uncaught exception out of the endpoint);
* every collaborator call the endpoint performs is recorded in an
  ordered event trace, so ordering and absence-of-call properties can be
  stated about a run.

The constants `TOKEN_2022_PROGRAM_ID`, `ASSOCIATED_TOKEN_PROGRAM_ID`,
`SYSTEM_PROGRAM_ID` and `RENT_SYSVAR_ID` are parsed from the very
strings hard-coded in the source; the environment-derived values
(`MINT_ADDRESS`, `AIRDROP_PUBKEY`) and the external
`Pubkey.find_program_address` derivation (SHA256 + curve check, opaque
to this development exactly as the spec treats AddressDeriver's
internals) live in a `Config` record.
-/

namespace Airdrop

/-- A byte is modelled as a natural number; ranges are enforced exactly
where the source enforces them (base58 decoding and `struct.pack`). -/
abbrev Byte := Nat

/-- A Solana public key: the 32-byte payload of `solders.Pubkey`. -/
abbrev Pubkey := List Byte

/-- The bitcoin base58 alphabet used by the `base58` python package,
which `solders`' `Pubkey.from_string` relies on. -/
def BASE58_ALPHABET : String :=
  "123456789ABCDEFGHJKLMNPQRSTUVWXYZabcdefghijkmnopqrstuvwxyz"

/-- Value of one base58 character; `none` when the character is not in
the alphabet (e.g. the character ! in the string "abc!"). -/
def b58DigitVal (c : Char) : Option Nat :=
  BASE58_ALPHABET.toList.findIdx? (fun x => x = c)

/-- Digit values of a whole string, failing on any invalid character. -/
def b58Digits (cs : List Char) : Option (List Nat) :=
  cs.mapM b58DigitVal

/-- The numeric value of a base58 digit string (big-endian). -/
def b58Value (ds : List Nat) : Nat :=
  ds.foldl (fun a d => a * 58 + d) 0

/-- Minimal big-endian base-256 digits of a natural number (empty for
zero), written with an explicit structural fuel so that it reduces by
kernel computation; `fuel = n` always suffices since the value shrinks
by a factor of 256 each step. -/
def natToBytesBEAux : Nat → Nat → List Byte
  | 0, _ => []
  | fuel + 1, n => if n = 0 then [] else natToBytesBEAux fuel (n / 256) ++ [n % 256]

/-- Minimal big-endian byte representation of a natural number. -/
def natToBytesBE (n : Nat) : List Byte :=
  natToBytesBEAux n n

/-- `base58.b58decode`: each leading 1 character contributes one leading
zero byte, the remaining value is written big-endian. -/
def b58decode (s : String) : Option (List Byte) :=
  match b58Digits s.toList with
  | none => none
  | some ds =>
      some (List.replicate ((s.toList.takeWhile (fun c => c = '1')).length) 0
            ++ natToBytesBE (b58Value ds))

/-- `solders.Pubkey.from_string`: base58-decode and require exactly 32
bytes; `none` models the raised exception on malformed input. -/
def pubkeyFromString (s : String) : Option Pubkey :=
  match b58decode s with
  | none => none
  | some bs => if bs.length = 32 then some bs else none

/-- `solders.AccountMeta(pubkey, is_signer, is_writable)`. -/
structure AccountMeta where
  pubkey : Pubkey
  signer : Bool
  writable : Bool
deriving DecidableEq

/-- `solders.Instruction(program_id, accounts, data)`. -/
structure Instruction where
  program_id : Pubkey
  accounts : List AccountMeta
  data : List Byte
deriving DecidableEq

/-- The sentinel `firestore.SERVER_TIMESTAMP` stored in the `createdAt`
field: the concrete time is assigned server-side, not by this code. -/
inductive ServerTimestamp
  | sentinel
deriving DecidableEq

/-- The document `claim_airdrop` writes to `db.collection("airdrops")
.document(uid)`: fields uid, email, wallet, tx, claimed, createdAt. -/
structure ClaimRecord where
  uid : String
  email : String
  wallet : String
  tx : String
  claimed : Bool
  createdAt : ServerTimestamp
deriving DecidableEq

/-- The Firestore collection, keyed by uid. -/
abbrev Store := List (String × ClaimRecord)

/-- `doc_ref.get()` followed by `doc.exists` / `doc.to_dict()`. -/
def storeGet (s : Store) (k : String) : Option ClaimRecord :=
  (s.find? (fun p => p.1 == k)).map (fun p => p.2)

/-- `doc_ref.set(...)`: an unconditional overwrite of the document. -/
def storeSet (s : Store) (k : String) (r : ClaimRecord) : Store :=
  (k, r) :: s.filter (fun p => !(p.1 == k))

/-- The transaction built by `Transaction.new_signed_with_payer`: the
instruction list, the payer, and the recent blockhash.  Signing itself
is done with the airdrop keypair and is opaque to the claims. -/
structure Tx where
  instructions : List Instruction
  payer : Pubkey
  recent_blockhash : Nat
deriving DecidableEq

/-- One collaborator call made by the endpoint, in program order.
`getBalance` is part of the ledger-gateway interface (spec section 6,
`get_balance`); the constructor exists so that "the code makes no
balance query" is a statement about traces, not about the event type. -/
inductive Event
  | storeGet (key : String)
  | storeSet (key : String) (record : ClaimRecord)
  | getTokenSupply (mint : Pubkey)
  | getAccountInfo (addr : Pubkey)
  | getBalance (addr : Pubkey)
  | getLatestBlockhash
  | sendRawTransaction (tx : Tx)
deriving DecidableEq

/-- The response of the endpoint: the two JSON success shapes, the
`HTTPException`s it raises itself, and an uncaught collaborator
exception (labelled by the failing call). -/
inductive ClaimResult
  | already_claimed (tx : String)
  | success (wallet : String) (tx : String) (explorer : String)
  | http_error (status : Nat) (detail : String)
  | upstream_error (stage : String)
deriving DecidableEq

/-- Result, final store and event trace of one run of the endpoint. -/
structure RunOutcome where
  result : ClaimResult
  store : Store
  events : List Event
deriving DecidableEq

/-- `TOKEN_2022_PROGRAM_ID` from the hard-coded string in the source. -/
def TOKEN_2022_PROGRAM_ID : Pubkey :=
  (pubkeyFromString "TokenzQdBNbLqP5VEhdkAS6EPFLC1PHnBqCXEpPxuEb").getD []

/-- `ASSOCIATED_TOKEN_PROGRAM_ID` from the hard-coded string. -/
def ASSOCIATED_TOKEN_PROGRAM_ID : Pubkey :=
  (pubkeyFromString "ATokenGPvbdGVxr1b2hvZbsiqW5xWH25efTNsLJA8knL").getD []

/-- The system program id, parsed inline in the source when building the
create-account instruction. -/
def SYSTEM_PROGRAM_ID : Pubkey :=
  (pubkeyFromString "11111111111111111111111111111111").getD []

/-- The rent sysvar id, parsed inline in the source. -/
def RENT_SYSVAR_ID : Pubkey :=
  (pubkeyFromString "SysvarRent111111111111111111111111111111111").getD []

/-- Environment-derived configuration: the mint address and airdrop
pubkey come from environment variables; `find_program_address` is the
external curve-dependent derivation of `solders`, opaque here. -/
structure Config where
  AIRDROP_PUBKEY : Pubkey
  MINT_ADDRESS : Pubkey
  find_program_address : List Pubkey → Pubkey → Pubkey

/-- `find_ata(owner, mint)` from the source helpers section. -/
def find_ata (cfg : Config) (owner mint : Pubkey) : Pubkey :=
  cfg.find_program_address [owner, TOKEN_2022_PROGRAM_ID, mint]
    ASSOCIATED_TOKEN_PROGRAM_ID

/-- Responses of the Solana RPC client for one run; `none` is a raised
transport error.  `balance` is the gateway's `get_balance` call, which
this endpoint never issues. -/
structure LedgerOracle where
  tokenSupplyDecimals : Option Nat
  accountInfoExists : Pubkey → Option Bool
  balance : Pubkey → Option Nat
  latestBlockhash : Option Nat
  sendRawTx : Tx → Option String

/-- Little-endian fixed-width byte encoding, as `struct.pack` lays out
an unsigned integer field. -/
def leBytes (width n : Nat) : List Byte :=
  (List.range width).map (fun i => n / 256 ^ i % 256)

/-- Little-endian byte decoding (for stating what an encoded field
holds). -/
def fromLEBytes (bs : List Byte) : Nat :=
  bs.foldr (fun b acc => b + 256 * acc) 0

/-- `struct.pack("<BQB", op, amt, dec)`: one byte, one 8-byte
little-endian unsigned integer, one byte; raises (`none`) when a field
is out of range for its format code. -/
def structPackBQB (op amt dec : Nat) : Option (List Byte) :=
  if op < 256 ∧ amt < 2 ^ 64 ∧ dec < 256 then
    some ([op] ++ leBytes 8 amt ++ [dec])
  else
    none

/-- The create-associated-token-account instruction appended when the
receiver's ATA is missing (source step 4, `instructions.append` inside
the `if`). -/
def create_ata_instruction (cfg : Config) (receiver_pubkey receiver_ata : Pubkey) :
    Instruction :=
  ⟨ASSOCIATED_TOKEN_PROGRAM_ID,
   [⟨cfg.AIRDROP_PUBKEY, true, true⟩,
    ⟨receiver_ata, false, true⟩,
    ⟨receiver_pubkey, false, false⟩,
    ⟨cfg.MINT_ADDRESS, false, false⟩,
    ⟨SYSTEM_PROGRAM_ID, false, false⟩,
    ⟨TOKEN_2022_PROGRAM_ID, false, false⟩,
    ⟨RENT_SYSVAR_ID, false, false⟩],
   []⟩

/-- The checked-transfer instruction always appended (source step 4,
second `instructions.append`), given the packed payload. -/
def transfer_instruction (cfg : Config) (sender_ata receiver_ata : Pubkey)
    (payload : List Byte) : Instruction :=
  ⟨TOKEN_2022_PROGRAM_ID,
   [⟨sender_ata, false, true⟩,
    ⟨cfg.MINT_ADDRESS, false, false⟩,
    ⟨receiver_ata, false, true⟩,
    ⟨cfg.AIRDROP_PUBKEY, true, false⟩],
   payload⟩

/-- The instruction-building block of the endpoint (source lines
159-198): the optional create instruction followed by the transfer,
whose payload is `struct.pack("<BQB", 12, 1 * 10 ** decimals,
decimals)`; `none` when the pack raises. -/
def build_instructions (cfg : Config)
    (receiver_pubkey sender_ata receiver_ata : Pubkey)
    (decimals : Nat) (ataExists : Bool) : Option (List Instruction) :=
  (structPackBQB 12 (1 * 10 ^ decimals) decimals).map (fun payload =>
    (if ataExists then []
     else [create_ata_instruction cfg receiver_pubkey receiver_ata])
    ++ [transfer_instruction cfg sender_ata receiver_ata payload])

/-- The endpoint body after the idempotency read observed no document
(source from step 3 on): validate the wallet, derive ATAs, query
decimals and receiver-ATA existence, build the plan, fetch a blockhash,
submit, and only then write the claim document.  The event trace of
this continuation starts at the first ledger call; the initial
`storeGet` event is emitted by `claim_airdrop` itself. -/
def claim_after_get (cfg : Config) (L : LedgerOracle)
    (uid email wallet : String) (db : Store) : RunOutcome :=
  match pubkeyFromString wallet with
  | none => ⟨.http_error 400 "Invalid wallet address", db, []⟩
  | some receiver_pubkey =>
    match L.tokenSupplyDecimals with
    | none => ⟨.upstream_error "get_token_supply", db, [.getTokenSupply cfg.MINT_ADDRESS]⟩
    | some decimals =>
      match L.accountInfoExists (find_ata cfg receiver_pubkey cfg.MINT_ADDRESS) with
      | none => ⟨.upstream_error "get_account_info", db,
                 [.getTokenSupply cfg.MINT_ADDRESS,
                  .getAccountInfo (find_ata cfg receiver_pubkey cfg.MINT_ADDRESS)]⟩
      | some ataExists =>
        match build_instructions cfg receiver_pubkey
                (find_ata cfg cfg.AIRDROP_PUBKEY cfg.MINT_ADDRESS)
                (find_ata cfg receiver_pubkey cfg.MINT_ADDRESS)
                decimals ataExists with
        | none => ⟨.upstream_error "struct.pack", db,
                   [.getTokenSupply cfg.MINT_ADDRESS,
                    .getAccountInfo (find_ata cfg receiver_pubkey cfg.MINT_ADDRESS)]⟩
        | some instructions =>
          match L.latestBlockhash with
          | none => ⟨.upstream_error "get_latest_blockhash", db,
                     [.getTokenSupply cfg.MINT_ADDRESS,
                      .getAccountInfo (find_ata cfg receiver_pubkey cfg.MINT_ADDRESS),
                      .getLatestBlockhash]⟩
          | some recent =>
            match L.sendRawTx ⟨instructions, cfg.AIRDROP_PUBKEY, recent⟩ with
            | none => ⟨.upstream_error "send_raw_transaction", db,
                       [.getTokenSupply cfg.MINT_ADDRESS,
                        .getAccountInfo (find_ata cfg receiver_pubkey cfg.MINT_ADDRESS),
                        .getLatestBlockhash,
                        .sendRawTransaction ⟨instructions, cfg.AIRDROP_PUBKEY, recent⟩]⟩
            | some sig =>
              ⟨.success wallet sig ("https://explorer.solana.com/tx/" ++ sig),
               storeSet db uid ⟨uid, email, wallet, sig, true, .sentinel⟩,
               [.getTokenSupply cfg.MINT_ADDRESS,
                .getAccountInfo (find_ata cfg receiver_pubkey cfg.MINT_ADDRESS),
                .getLatestBlockhash,
                .sendRawTransaction ⟨instructions, cfg.AIRDROP_PUBKEY, recent⟩,
                .storeSet uid ⟨uid, email, wallet, sig, true, .sentinel⟩]⟩

/-- The `/claim` endpoint body after token verification (source steps
2-6): read the claim document for the uid; if it exists, answer
`already_claimed` with its stored tx; otherwise run the continuation. -/
def claim_airdrop (cfg : Config) (L : LedgerOracle)
    (uid email wallet : String) (db : Store) : RunOutcome :=
  match storeGet db uid with
  | some doc => ⟨.already_claimed doc.tx, db, [.storeGet uid]⟩
  | none =>
    let out := claim_after_get cfg L uid email wallet db
    ⟨out.result, out.store, .storeGet uid :: out.events⟩

/-- Whether a trace contains a store write. -/
def hasStoreSet (evs : List Event) : Bool :=
  evs.any (fun e => match e with | .storeSet _ _ => true | _ => false)

/-- Whether a trace contains a transaction submission. -/
def hasSubmission (evs : List Event) : Bool :=
  evs.any (fun e => match e with | .sendRawTransaction _ => true | _ => false)

/-- Whether a trace contains any balance query. -/
def hasBalanceQuery (evs : List Event) : Bool :=
  evs.any (fun e => match e with | .getBalance _ => true | _ => false)

/-- Whether a trace contains any ledger-gateway call at all. -/
def hasLedgerCall (evs : List Event) : Bool :=
  evs.any (fun e => match e with
    | .storeGet _ => false
    | .storeSet _ _ => false
    | _ => true)

/-- Whether a trace queries the existence of a given account. -/
def queriesAccount (evs : List Event) (a : Pubkey) : Bool :=
  evs.any (fun e => match e with | .getAccountInfo x => x == a | _ => false)

/-- Number of transaction submissions in a trace. -/
def countSubmissions (evs : List Event) : Nat :=
  (evs.filter (fun e => match e with | .sendRawTransaction _ => true | _ => false)).length

/-- Whether a result is the success shape. -/
def isSuccess : ClaimResult → Bool
  | .success _ _ _ => true
  | _ => false

/-- A syntactically valid receiver wallet: 32 base58 one-characters decode
to the 32-byte zero key. -/
def wallet0 : String := "11111111111111111111111111111111"

/-- Concrete configuration for witness runs: distinct airdrop and mint
keys, and a program-derived-address function that projects the owner
seed (any function works, the claims treat the derivation opaquely). -/
def cfg0 : Config :=
  ⟨List.replicate 32 1, List.replicate 32 2, fun seeds _ => seeds.headD []⟩

/-- Ledger responses for witness runs: 6 decimals, every account exists,
every balance is 0, and submission acknowledges with "SIG123". -/
def L0 : LedgerOracle :=
  ⟨some 6, fun _ => some true, fun _ => some 0, some 7, fun _ => some "SIG123"⟩

/-- Ledger responses where no token account exists at all (in particular
the sender's), balances are 0, and submission still acknowledges. -/
def L8 : LedgerOracle :=
  ⟨some 6, fun _ => some false, fun _ => some 0, some 7, fun _ => some "SIG123"⟩

theorem fromLEBytes_cons (b : Byte) (bs : List Byte) :
    fromLEBytes (b :: bs) = b + 256 * fromLEBytes bs := rfl

theorem leBytes_succ (w n : Nat) :
    leBytes (w + 1) n = n % 256 :: leBytes w (n / 256) := by
  unfold leBytes
  rw [List.range_succ_eq_map]
  simp only [List.map_cons, List.map_map, pow_zero, Nat.div_one]
  refine congrArg _ ?_
  refine List.map_congr_left ?_
  intro i _
  show n / 256 ^ (i + 1) % 256 = n / 256 / 256 ^ i % 256
  rw [Nat.div_div_eq_div_mul, ← pow_succ']

theorem fromLE_leBytes (w : Nat) : ∀ n, fromLEBytes (leBytes w n) = n % 256 ^ w := by
  induction w with
  | zero => intro n; simp [leBytes, fromLEBytes, Nat.mod_one]
  | succ w ih =>
      intro n
      rw [leBytes_succ, fromLEBytes_cons, ih, pow_succ', Nat.mod_mul]

theorem storeGet_storeSet_self (s : Store) (k : String) (r : ClaimRecord) :
    storeGet (storeSet s k r) k = some r := by
  simp [storeGet, storeSet, List.find?]

theorem find?_filter_ne (k kq : String) (h : k ≠ kq) (s : Store) :
    (s.filter (fun p => !(p.1 == k))).find? (fun p => p.1 == kq)
      = s.find? (fun p => p.1 == kq) := by
  induction s with
  | nil => rfl
  | cons a t ih =>
      by_cases hk : a.1 = k
      · have h2 : (a.1 == kq) = false := by
          simp only [beq_eq_false_iff_ne, ne_eq, hk]
          exact h
        have h3 : (k == kq) = false := by simp [h]
        simp [List.filter_cons, hk, List.find?, h2, h3, ih]
      · have h1 : (a.1 == k) = false := by simp [hk]
        cases hc : (a.1 == kq) with
        | true => simp [List.filter_cons, h1, List.find?, hc]
        | false => simp [List.filter_cons, h1, List.find?, hc, ih]

theorem storeGet_storeSet_ne (s : Store) (k kq : String) (r : ClaimRecord)
    (h : k ≠ kq) : storeGet (storeSet s k r) kq = storeGet s kq := by
  have hk : (k == kq) = false := by simp [h]
  simp [storeGet, storeSet, List.find?, hk, find?_filter_ne k kq h]

theorem after_get_nonsuccess (cfg : Config) (L : LedgerOracle)
    (uid email wallet : String) (db : Store)
    (h : isSuccess (claim_after_get cfg L uid email wallet db).result = false) :
    (claim_after_get cfg L uid email wallet db).store = db ∧
    hasStoreSet (claim_after_get cfg L uid email wallet db).events = false := by
  unfold claim_after_get at h ⊢
  cases hp : pubkeyFromString wallet with
  | none => simp [hp, hasStoreSet]
  | some rp =>
    cases hd : L.tokenSupplyDecimals with
    | none => simp [hp, hd, hasStoreSet]
    | some d =>
      cases ha : L.accountInfoExists (find_ata cfg rp cfg.MINT_ADDRESS) with
      | none => simp [hp, hd, ha, hasStoreSet]
      | some b =>
        cases hb : build_instructions cfg rp
            (find_ata cfg cfg.AIRDROP_PUBKEY cfg.MINT_ADDRESS)
            (find_ata cfg rp cfg.MINT_ADDRESS) d b with
        | none => simp [hp, hd, ha, hb, hasStoreSet]
        | some instrs =>
          cases hh : L.latestBlockhash with
          | none => simp [hp, hd, ha, hb, hh, hasStoreSet]
          | some recent =>
            cases hs : L.sendRawTx ⟨instrs, cfg.AIRDROP_PUBKEY, recent⟩ with
            | none => simp [hp, hd, ha, hb, hh, hs, hasStoreSet]
            | some sig =>
              exfalso
              simp [hp, hd, ha, hb, hh, hs, isSuccess] at h

theorem after_get_success (cfg : Config) (L : LedgerOracle)
    (uid email wallet : String) (db : Store) (w sig ex : String)
    (h : (claim_after_get cfg L uid email wallet db).result = .success w sig ex) :
    w = wallet ∧ ex = "https://explorer.solana.com/tx/" ++ sig ∧
    ∃ rp d b instrs recent,
      pubkeyFromString wallet = some rp ∧
      L.tokenSupplyDecimals = some d ∧
      L.accountInfoExists (find_ata cfg rp cfg.MINT_ADDRESS) = some b ∧
      build_instructions cfg rp (find_ata cfg cfg.AIRDROP_PUBKEY cfg.MINT_ADDRESS)
          (find_ata cfg rp cfg.MINT_ADDRESS) d b = some instrs ∧
      L.latestBlockhash = some recent ∧
      L.sendRawTx ⟨instrs, cfg.AIRDROP_PUBKEY, recent⟩ = some sig ∧
      claim_after_get cfg L uid email wallet db =
        ⟨.success wallet sig ("https://explorer.solana.com/tx/" ++ sig),
         storeSet db uid ⟨uid, email, wallet, sig, true, .sentinel⟩,
         [.getTokenSupply cfg.MINT_ADDRESS,
          .getAccountInfo (find_ata cfg rp cfg.MINT_ADDRESS),
          .getLatestBlockhash,
          .sendRawTransaction ⟨instrs, cfg.AIRDROP_PUBKEY, recent⟩,
          .storeSet uid ⟨uid, email, wallet, sig, true, .sentinel⟩]⟩ := by
  unfold claim_after_get at h ⊢
  cases hp : pubkeyFromString wallet with
  | none => simp [hp] at h
  | some rp =>
    cases hd : L.tokenSupplyDecimals with
    | none => simp [hp, hd] at h
    | some d =>
      cases ha : L.accountInfoExists (find_ata cfg rp cfg.MINT_ADDRESS) with
      | none => simp [hp, hd, ha] at h
      | some b =>
        cases hb : build_instructions cfg rp
            (find_ata cfg cfg.AIRDROP_PUBKEY cfg.MINT_ADDRESS)
            (find_ata cfg rp cfg.MINT_ADDRESS) d b with
        | none => simp [hp, hd, ha, hb] at h
        | some instrs =>
          cases hh : L.latestBlockhash with
          | none => simp [hp, hd, ha, hb, hh] at h
          | some recent =>
            cases hs : L.sendRawTx ⟨instrs, cfg.AIRDROP_PUBKEY, recent⟩ with
            | none => simp [hp, hd, ha, hb, hh, hs] at h
            | some sg =>
              simp only [hp, hd, ha, hb, hh, hs] at h
              have hw : wallet = w ∧ sg = sig ∧ ("https://explorer.solana.com/tx/" ++ sg) = ex := by
                cases h
                exact ⟨rfl, rfl, rfl⟩
              obtain ⟨hw1, hw2, hw3⟩ := hw
              subst hw1 hw2 hw3
              refine ⟨rfl, rfl, rp, d, b, instrs, recent, rfl, rfl, ha, hb, rfl, hs, ?_⟩
              simp [hp, hd, ha, hb, hh, hs]

theorem after_get_eval (cfg : Config) (L : LedgerOracle)
    (uid email wallet : String) (db : Store)
    (rp : Pubkey) (d : Nat) (b : Bool) (instrs : List Instruction)
    (recent : Nat) (sig : String)
    (hp : pubkeyFromString wallet = some rp)
    (hd : L.tokenSupplyDecimals = some d)
    (ha : L.accountInfoExists (find_ata cfg rp cfg.MINT_ADDRESS) = some b)
    (hb : build_instructions cfg rp (find_ata cfg cfg.AIRDROP_PUBKEY cfg.MINT_ADDRESS)
            (find_ata cfg rp cfg.MINT_ADDRESS) d b = some instrs)
    (hh : L.latestBlockhash = some recent)
    (hs : L.sendRawTx ⟨instrs, cfg.AIRDROP_PUBKEY, recent⟩ = some sig) :
    claim_after_get cfg L uid email wallet db =
      ⟨.success wallet sig ("https://explorer.solana.com/tx/" ++ sig),
       storeSet db uid ⟨uid, email, wallet, sig, true, .sentinel⟩,
       [.getTokenSupply cfg.MINT_ADDRESS,
        .getAccountInfo (find_ata cfg rp cfg.MINT_ADDRESS),
        .getLatestBlockhash,
        .sendRawTransaction ⟨instrs, cfg.AIRDROP_PUBKEY, recent⟩,
        .storeSet uid ⟨uid, email, wallet, sig, true, .sentinel⟩]⟩ := by
  unfold claim_after_get
  simp [hp, hd, ha, hb, hh, hs]

theorem claim_nonsuccess (cfg : Config) (L : LedgerOracle)
    (uid email wallet : String) (db : Store)
    (h : isSuccess (claim_airdrop cfg L uid email wallet db).result = false) :
    (claim_airdrop cfg L uid email wallet db).store = db ∧
    hasStoreSet (claim_airdrop cfg L uid email wallet db).events = false := by
  unfold claim_airdrop at h ⊢
  cases hg : storeGet db uid with
  | some doc => simp [hasStoreSet]
  | none =>
    simp only [hg] at h ⊢
    have := after_get_nonsuccess cfg L uid email wallet db (by simpa using h)
    simp [hasStoreSet] at this ⊢
    exact this

theorem claim_success_run (cfg : Config) (L : LedgerOracle)
    (uid email wallet : String) (db : Store) (w sig ex : String)
    (h : (claim_airdrop cfg L uid email wallet db).result = .success w sig ex) :
    storeGet db uid = none ∧ w = wallet ∧
    ∃ rp d b instrs recent,
      pubkeyFromString wallet = some rp ∧
      L.tokenSupplyDecimals = some d ∧
      L.accountInfoExists (find_ata cfg rp cfg.MINT_ADDRESS) = some b ∧
      build_instructions cfg rp (find_ata cfg cfg.AIRDROP_PUBKEY cfg.MINT_ADDRESS)
          (find_ata cfg rp cfg.MINT_ADDRESS) d b = some instrs ∧
      L.latestBlockhash = some recent ∧
      L.sendRawTx ⟨instrs, cfg.AIRDROP_PUBKEY, recent⟩ = some sig ∧
      claim_airdrop cfg L uid email wallet db =
        ⟨.success wallet sig ("https://explorer.solana.com/tx/" ++ sig),
         storeSet db uid ⟨uid, email, wallet, sig, true, .sentinel⟩,
         [.storeGet uid,
          .getTokenSupply cfg.MINT_ADDRESS,
          .getAccountInfo (find_ata cfg rp cfg.MINT_ADDRESS),
          .getLatestBlockhash,
          .sendRawTransaction ⟨instrs, cfg.AIRDROP_PUBKEY, recent⟩,
          .storeSet uid ⟨uid, email, wallet, sig, true, .sentinel⟩]⟩ := by
  have hg : storeGet db uid = none := by
    cases hg : storeGet db uid with
    | none => rfl
    | some doc =>
        exfalso
        unfold claim_airdrop at h
        simp [hg] at h
  have hres : (claim_after_get cfg L uid email wallet db).result = .success w sig ex := by
    unfold claim_airdrop at h
    simpa [hg] using h
  obtain ⟨hw, hex, rp, d, b, instrs, recent, hp, hd, ha, hb, hh, hs, heq⟩ :=
    after_get_success cfg L uid email wallet db w sig ex hres
  refine ⟨hg, hw, rp, d, b, instrs, recent, hp, hd, ha, hb, hh, hs, ?_⟩
  unfold claim_airdrop
  simp [hg, heq]

/-- C1: after a first claim call by an identity created a ClaimRecord, a
second call for the same identity returns `already_claimed` carrying the
signature the first call recorded, leaves the store unchanged, and its
trace is the single idempotency read: no ledger-gateway call, no
submission, no store write.  The second call may even use a different
configuration, oracle, email or wallet. -/
theorem second_claim_already_claimed (cfg cfg2 : Config) (L L2 : LedgerOracle)
    (uid email email2 wallet wallet2 : String) (db : Store) (w sig ex : String)
    (h : (claim_airdrop cfg L uid email wallet db).result = .success w sig ex) :
    claim_airdrop cfg2 L2 uid email2 wallet2 (claim_airdrop cfg L uid email wallet db).store
      = ⟨.already_claimed sig,
         (claim_airdrop cfg L uid email wallet db).store,
         [.storeGet uid]⟩ ∧
    hasLedgerCall (claim_airdrop cfg2 L2 uid email2 wallet2
        (claim_airdrop cfg L uid email wallet db).store).events = false ∧
    hasSubmission (claim_airdrop cfg2 L2 uid email2 wallet2
        (claim_airdrop cfg L uid email wallet db).store).events = false ∧
    hasStoreSet (claim_airdrop cfg2 L2 uid email2 wallet2
        (claim_airdrop cfg L uid email wallet db).store).events = false := by
  obtain ⟨hg, hw, rp, d, b, instrs, recent, hp, hd, ha, hb, hh, hs, heq⟩ :=
    claim_success_run cfg L uid email wallet db w sig ex h
  have hst : (claim_airdrop cfg L uid email wallet db).store
      = storeSet db uid ⟨uid, email, wallet, sig, true, .sentinel⟩ := by rw [heq]
  have hmain : claim_airdrop cfg2 L2 uid email2 wallet2
      (claim_airdrop cfg L uid email wallet db).store
      = ⟨.already_claimed sig,
         (claim_airdrop cfg L uid email wallet db).store,
         [.storeGet uid]⟩ := by
    rw [hst]
    unfold claim_airdrop
    rw [storeGet_storeSet_self]
  exact ⟨hmain, by rw [hmain]; rfl, by rw [hmain]; rfl, by rw [hmain]; rfl⟩

/-- C1 witness: a concrete first call succeeds with signature "SIG123",
and the concrete second call answers `already_claimed` with "SIG123",
with the idempotency read as its only event. -/
theorem second_claim_already_claimed_witness :
    (claim_airdrop cfg0 L0 "user-1" "e" wallet0 ([] : Store)).result
      = .success wallet0 "SIG123" ("https://explorer.solana.com/tx/" ++ "SIG123") ∧
    claim_airdrop cfg0 L0 "user-1" "e" wallet0
        (claim_airdrop cfg0 L0 "user-1" "e" wallet0 ([] : Store)).store
      = ⟨.already_claimed "SIG123",
         (claim_airdrop cfg0 L0 "user-1" "e" wallet0 ([] : Store)).store,
         [.storeGet "user-1"]⟩ :=
  ⟨by decide,
   (second_claim_already_claimed cfg0 cfg0 L0 L0 "user-1" "e" "e" wallet0 wallet0
      ([] : Store) wallet0 "SIG123"
      ("https://explorer.solana.com/tx/" ++ "SIG123") (by decide)).1⟩

theorem isSuccess_true_elim (res : ClaimResult) (h : isSuccess res = true) :
    ∃ w sig ex, res = .success w sig ex := by
  cases res with
  | success w sig ex => exact ⟨w, sig, ex, rfl⟩
  | already_claimed tx => simp [isSuccess] at h
  | http_error s dtl => simp [isSuccess] at h
  | upstream_error st => simp [isSuccess] at h

/-- C4: side effects of a run are ordered: the idempotency read is the
first event of every trace (hence before any ledger-gateway call); any
run that does not end in success leaves the store untouched and performs
no store write; and whenever a store write appears in a trace, the trace
is exactly the success trace, in which the write is the last event and
is preceded by the submission, which returned the recorded signature. -/
theorem side_effects_ordered (cfg : Config) (L : LedgerOracle)
    (uid email wallet : String) (db : Store) :
    (claim_airdrop cfg L uid email wallet db).events.head? = some (.storeGet uid) ∧
    (isSuccess (claim_airdrop cfg L uid email wallet db).result = false →
      (claim_airdrop cfg L uid email wallet db).store = db ∧
      hasStoreSet (claim_airdrop cfg L uid email wallet db).events = false) ∧
    (hasStoreSet (claim_airdrop cfg L uid email wallet db).events = true →
      ∃ rp instrs recent sig,
        L.sendRawTx ⟨instrs, cfg.AIRDROP_PUBKEY, recent⟩ = some sig ∧
        (claim_airdrop cfg L uid email wallet db).events
          = [.storeGet uid,
             .getTokenSupply cfg.MINT_ADDRESS,
             .getAccountInfo (find_ata cfg rp cfg.MINT_ADDRESS),
             .getLatestBlockhash,
             .sendRawTransaction ⟨instrs, cfg.AIRDROP_PUBKEY, recent⟩,
             .storeSet uid ⟨uid, email, wallet, sig, true, .sentinel⟩]) := by
  refine ⟨?_, claim_nonsuccess cfg L uid email wallet db, ?_⟩
  · unfold claim_airdrop
    cases hg : storeGet db uid <;> simp
  · intro hset
    cases hiss : isSuccess (claim_airdrop cfg L uid email wallet db).result with
    | false =>
        exact absurd hset (by
          rw [(claim_nonsuccess cfg L uid email wallet db hiss).2]
          simp)
    | true =>
        obtain ⟨w, sig, ex, hres⟩ :=
          isSuccess_true_elim (claim_airdrop cfg L uid email wallet db).result hiss
        obtain ⟨hg, hw, rp, d, b, instrs, recent, hp, hd, ha, hb, hh, hs, heq⟩ :=
          claim_success_run cfg L uid email wallet db w sig ex hres
        refine ⟨rp, instrs, recent, sig, hs, ?_⟩
        rw [heq]

/-- C4 witness: at a concrete failing input (malformed wallet) the first
event is the idempotency read and the store is left unchanged with no
write; the hypothesis of the non-success branch is discharged by
computation. -/
theorem side_effects_ordered_witness :
    (claim_airdrop cfg0 L0 "user-1" "e" "abc!" ([] : Store)).events.head?
      = some (.storeGet "user-1") ∧
    (claim_airdrop cfg0 L0 "user-1" "e" "abc!" ([] : Store)).store = ([] : Store) ∧
    hasStoreSet (claim_airdrop cfg0 L0 "user-1" "e" "abc!" ([] : Store)).events = false :=
  ⟨(side_effects_ordered cfg0 L0 "user-1" "e" "abc!" ([] : Store)).1,
   (side_effects_ordered cfg0 L0 "user-1" "e" "abc!" ([] : Store)).2.1 (by decide)⟩

/-- C9 counterexample: with a malformed receiver wallet "abc!" on a
fresh identity, the run does fail with the invalid-wallet error, but its
trace is not empty: the idempotency store read has already happened, so
"no collaborator calls are made" is false of the code. -/
theorem invalid_wallet_reads_store :
    (claim_airdrop cfg0 L0 "user-1" "e" "abc!" ([] : Store)).result
      = .http_error 400 "Invalid wallet address" ∧
    (claim_airdrop cfg0 L0 "user-1" "e" "abc!" ([] : Store)).events
      = [.storeGet "user-1"] ∧
    ((claim_airdrop cfg0 L0 "user-1" "e" "abc!" ([] : Store)).events).isEmpty = false := by
  decide

/-- C9 amended: a malformed receiver wallet on an identity with no prior
record yields the invalid-wallet error, no ledger-gateway call, no store
write and an unchanged store; the only collaborator call is the
idempotency store read, which precedes validation. -/
theorem invalid_wallet_rejected (cfg : Config) (L : LedgerOracle)
    (uid email wallet : String) (db : Store)
    (hv : pubkeyFromString wallet = none)
    (hg : storeGet db uid = none) :
    claim_airdrop cfg L uid email wallet db
      = ⟨.http_error 400 "Invalid wallet address", db, [.storeGet uid]⟩ := by
  unfold claim_airdrop claim_after_get
  simp [hg, hv]

/-- C9 amended witness: the concrete malformed wallet "abc!". -/
theorem invalid_wallet_rejected_witness :
    claim_airdrop cfg0 L0 "user-1" "e" "abc!" ([] : Store)
      = ⟨.http_error 400 "Invalid wallet address", ([] : Store), [.storeGet "user-1"]⟩ :=
  invalid_wallet_rejected cfg0 L0 "user-1" "e" "abc!" ([] : Store)
    (by decide) (by decide)

/-- C10: the idempotency key is the identity alone, not the wallet.  If
a first identity has successfully claimed naming some wallet, a second,
distinct identity with no prior record claiming the very same wallet
still proceeds to a payout (success, with a submission) and gets its own
ClaimRecord, while the first identity's record is untouched; and a
repeat request by the first identity — even naming a different wallet —
is short-circuited to `already_claimed` with the recorded signature. -/
theorem idempotency_key_is_identity (cfg : Config) (L : LedgerOracle)
    (uid1 uid2 email1 email2 email3 wallet wallet2 : String) (db : Store)
    (w sig ex : String)
    (hne : uid1 ≠ uid2)
    (h2 : storeGet db uid2 = none)
    (h : (claim_airdrop cfg L uid1 email1 wallet db).result = .success w sig ex) :
    isSuccess (claim_airdrop cfg L uid2 email2 wallet
        (claim_airdrop cfg L uid1 email1 wallet db).store).result = true ∧
    hasSubmission (claim_airdrop cfg L uid2 email2 wallet
        (claim_airdrop cfg L uid1 email1 wallet db).store).events = true ∧
    storeGet (claim_airdrop cfg L uid2 email2 wallet
        (claim_airdrop cfg L uid1 email1 wallet db).store).store uid1
      = some ⟨uid1, email1, wallet, sig, true, .sentinel⟩ ∧
    storeGet (claim_airdrop cfg L uid2 email2 wallet
        (claim_airdrop cfg L uid1 email1 wallet db).store).store uid2
      = some ⟨uid2, email2, wallet, sig, true, .sentinel⟩ ∧
    (claim_airdrop cfg L uid1 email3 wallet2
        (claim_airdrop cfg L uid1 email1 wallet db).store).result
      = .already_claimed sig := by
  obtain ⟨hg1, hw, rp, d, b, instrs, recent, hp, hd, ha, hb, hh, hs, heq1⟩ :=
    claim_success_run cfg L uid1 email1 wallet db w sig ex h
  have hst1 : (claim_airdrop cfg L uid1 email1 wallet db).store
      = storeSet db uid1 ⟨uid1, email1, wallet, sig, true, .sentinel⟩ := by rw [heq1]
  have hget2 : storeGet (storeSet db uid1
      ⟨uid1, email1, wallet, sig, true, .sentinel⟩) uid2 = none := by
    rw [storeGet_storeSet_ne db uid1 uid2 _ hne]
    exact h2
  have hcont := after_get_eval cfg L uid2 email2 wallet
    (storeSet db uid1 ⟨uid1, email1, wallet, sig, true, .sentinel⟩)
    rp d b instrs recent sig hp hd ha hb hh hs
  have heq2 : claim_airdrop cfg L uid2 email2 wallet
      (storeSet db uid1 ⟨uid1, email1, wallet, sig, true, .sentinel⟩)
      = ⟨.success wallet sig ("https://explorer.solana.com/tx/" ++ sig),
         storeSet (storeSet db uid1 ⟨uid1, email1, wallet, sig, true, .sentinel⟩)
           uid2 ⟨uid2, email2, wallet, sig, true, .sentinel⟩,
         [.storeGet uid2,
          .getTokenSupply cfg.MINT_ADDRESS,
          .getAccountInfo (find_ata cfg rp cfg.MINT_ADDRESS),
          .getLatestBlockhash,
          .sendRawTransaction ⟨instrs, cfg.AIRDROP_PUBKEY, recent⟩,
          .storeSet uid2 ⟨uid2, email2, wallet, sig, true, .sentinel⟩]⟩ := by
    unfold claim_airdrop
    simp [hget2, hcont]
  refine ⟨?_, ?_, ?_, ?_, ?_⟩
  · rw [hst1, heq2]; rfl
  · rw [hst1, heq2]; rfl
  · rw [hst1, heq2]
    show storeGet (storeSet _ uid2 _) uid1 = _
    rw [storeGet_storeSet_ne _ uid2 uid1 _ (Ne.symm hne), storeGet_storeSet_self]
  · rw [hst1, heq2]
    show storeGet (storeSet _ uid2 _) uid2 = _
    rw [storeGet_storeSet_self]
  · rw [hst1]
    unfold claim_airdrop
    rw [storeGet_storeSet_self]

/-- C10 witness: two concrete identities claim the same wallet; the
second still succeeds and the first identity's repeat request with a
different wallet string is short-circuited. -/
theorem idempotency_key_is_identity_witness :
    isSuccess (claim_airdrop cfg0 L0 "user-2" "e2" wallet0
        (claim_airdrop cfg0 L0 "user-1" "e1" wallet0 ([] : Store)).store).result = true ∧
    (claim_airdrop cfg0 L0 "user-1" "e3" "abc!"
        (claim_airdrop cfg0 L0 "user-1" "e1" wallet0 ([] : Store)).store).result
      = .already_claimed "SIG123" :=
  have hthm := idempotency_key_is_identity cfg0 L0 "user-1" "user-2" "e1" "e2" "e3"
    wallet0 "abc!" ([] : Store) wallet0 "SIG123"
    ("https://explorer.solana.com/tx/" ++ "SIG123")
    (by decide) (by decide) (by decide)
  ⟨hthm.1, hthm.2.2.2.2⟩

/-- C2 (code divergence): the endpoint never queries any balance.  At a
concrete fresh-identity run whose oracle reports the sender token
account's balance as 0 — strictly less than the required raw amount
10 ^ 6 for the reported 6 decimals — the run still succeeds: it submits
a transaction and writes a ClaimRecord, makes no balance query, and no
`Exhausted` outcome exists anywhere in the endpoint. -/
theorem low_balance_still_submits :
    L0.balance (find_ata cfg0 cfg0.AIRDROP_PUBKEY cfg0.MINT_ADDRESS) = some 0 ∧
    L0.tokenSupplyDecimals = some 6 ∧
    (0 : Nat) < 1 * 10 ^ 6 ∧
    storeGet ([] : Store) "user-1" = none ∧
    isSuccess (claim_airdrop cfg0 L0 "user-1" "e" wallet0 ([] : Store)).result = true ∧
    hasBalanceQuery (claim_airdrop cfg0 L0 "user-1" "e" wallet0 ([] : Store)).events = false ∧
    hasSubmission (claim_airdrop cfg0 L0 "user-1" "e" wallet0 ([] : Store)).events = true ∧
    hasStoreSet (claim_airdrop cfg0 L0 "user-1" "e" wallet0 ([] : Store)).events = true := by
  decide

/-- C8 (code divergence): the endpoint never queries the sender token
account's existence.  At a concrete fresh-identity run whose oracle
reports every account (in particular the sender ATA) as absent, the run
still succeeds, never queries the sender ATA, submits and records; no
`SenderAccountMissing` outcome exists anywhere in the endpoint. -/
theorem missing_sender_account_still_submits :
    L8.accountInfoExists (find_ata cfg0 cfg0.AIRDROP_PUBKEY cfg0.MINT_ADDRESS)
      = some false ∧
    storeGet ([] : Store) "user-1" = none ∧
    isSuccess (claim_airdrop cfg0 L8 "user-1" "e" wallet0 ([] : Store)).result = true ∧
    queriesAccount (claim_airdrop cfg0 L8 "user-1" "e" wallet0 ([] : Store)).events
        (find_ata cfg0 cfg0.AIRDROP_PUBKEY cfg0.MINT_ADDRESS) = false ∧
    hasSubmission (claim_airdrop cfg0 L8 "user-1" "e" wallet0 ([] : Store)).events = true ∧
    hasStoreSet (claim_airdrop cfg0 L8 "user-1" "e" wallet0 ([] : Store)).events = true := by
  decide

/-- C3 (code divergence): the record write is a plain get followed by an
unconditional set, not an atomic create-if-absent.  In the interleaving
where two requests for the same identity both perform their idempotency
read on the initial (empty) store before either writes, both observe
"absent", both run the continuation `claim_after_get` (the endpoint body
after the read), both submit — two submissions for one identity — and
the second unconditional write overwrites the first record. -/
theorem interleaved_same_identity_double_submission :
    storeGet ([] : Store) "user-1" = none ∧
    isSuccess (claim_after_get cfg0 L0 "user-1" "ea" wallet0 ([] : Store)).result = true ∧
    isSuccess (claim_after_get cfg0 L0 "user-1" "eb" wallet0
        (claim_after_get cfg0 L0 "user-1" "ea" wallet0 ([] : Store)).store).result = true ∧
    countSubmissions ((claim_after_get cfg0 L0 "user-1" "ea" wallet0 ([] : Store)).events
        ++ (claim_after_get cfg0 L0 "user-1" "eb" wallet0
              (claim_after_get cfg0 L0 "user-1" "ea" wallet0 ([] : Store)).store).events)
      = 2 ∧
    storeGet (claim_after_get cfg0 L0 "user-1" "eb" wallet0
        (claim_after_get cfg0 L0 "user-1" "ea" wallet0 ([] : Store)).store).store "user-1"
      = some ⟨"user-1", "eb", wallet0, "SIG123", true, .sentinel⟩ := by
  decide

theorem length_leBytes (w n : Nat) : (leBytes w n).length = w := by
  simp [leBytes]

theorem structPackBQB_inv (op amt dec : Nat) (bs : List Byte)
    (h : structPackBQB op amt dec = some bs) :
    op < 256 ∧ amt < 2 ^ 64 ∧ dec < 256 ∧ bs = [op] ++ leBytes 8 amt ++ [dec] := by
  unfold structPackBQB at h
  by_cases hc : op < 256 ∧ amt < 2 ^ 64 ∧ dec < 256
  · rw [if_pos hc] at h
    cases h
    exact ⟨hc.1, hc.2.1, hc.2.2, rfl⟩
  · rw [if_neg hc] at h
    simp at h

/-- C5: every successfully built plan is the optional create instruction
followed by the transfer: exactly one instruction (the transfer only)
when the receiver's token account exists, exactly two (creation first,
then the transfer) when it does not. -/
theorem plan_is_create_then_transfer (cfg : Config) (rp s r : Pubkey) (d : Nat)
    (b : Bool) (plan : List Instruction)
    (h : build_instructions cfg rp s r d b = some plan) :
    ∃ payload,
      plan = (if b then [] else [create_ata_instruction cfg rp r])
               ++ [transfer_instruction cfg s r payload] ∧
      plan.length = if b then 1 else 2 := by
  unfold build_instructions at h
  cases hpk : structPackBQB 12 (1 * 10 ^ d) d with
  | none => rw [hpk] at h; simp at h
  | some payload =>
      rw [hpk] at h
      simp only [Option.map_some'] at h
      cases h
      exact ⟨payload, rfl, by cases b <;> simp⟩

/-- C5 witness: a concrete plan for a missing receiver account has the
create instruction first and the transfer second, with length two. -/
theorem plan_is_create_then_transfer_witness :
    ∃ payload,
      (build_instructions cfg0 (List.replicate 32 0) (List.replicate 32 1)
          (List.replicate 32 0) 6 false).getD []
        = (if false then []
           else [create_ata_instruction cfg0 (List.replicate 32 0) (List.replicate 32 0)])
            ++ [transfer_instruction cfg0 (List.replicate 32 1) (List.replicate 32 0) payload] ∧
      ((build_instructions cfg0 (List.replicate 32 0) (List.replicate 32 1)
          (List.replicate 32 0) 6 false).getD []).length = if false then 1 else 2 :=
  plan_is_create_then_transfer cfg0 (List.replicate 32 0) (List.replicate 32 1)
    (List.replicate 32 0) 6 false
    ((build_instructions cfg0 (List.replicate 32 0) (List.replicate 32 1)
        (List.replicate 32 0) 6 false).getD []) rfl

/-- C6: the transfer instruction of every successfully built plan — its
last instruction — carries a 10-byte payload: opcode byte 12 (the
checked-transfer discriminator), then the raw amount 10 ^ decimals as 8
little-endian bytes, then the decimals byte. -/
theorem transfer_payload_layout (cfg : Config) (rp s r : Pubkey) (d : Nat)
    (b : Bool) (plan : List Instruction)
    (h : build_instructions cfg rp s r d b = some plan) :
    ∃ t, plan.getLast? = some t ∧
      t.data = [12] ++ leBytes 8 (10 ^ d) ++ [d] ∧
      t.data.length = 10 ∧
      t.data.head? = some 12 ∧
      t.data.getLast? = some d ∧
      fromLEBytes (List.take 8 (List.drop 1 t.data)) = 10 ^ d := by
  unfold build_instructions at h
  cases hpk : structPackBQB 12 (1 * 10 ^ d) d with
  | none => rw [hpk] at h; simp at h
  | some payload =>
      obtain ⟨h1, h2, h3, hpl⟩ := structPackBQB_inv _ _ _ _ hpk
      rw [hpk] at h
      simp only [Option.map_some'] at h
      cases h
      refine ⟨transfer_instruction cfg s r payload, List.getLast?_concat _, ?_, ?_, ?_, ?_, ?_⟩
      · show payload = [12] ++ leBytes 8 (10 ^ d) ++ [d]
        rw [hpl, one_mul]
      · show payload.length = 10
        rw [hpl]
        simp [List.length_append, length_leBytes]
      · show payload.head? = some 12
        rw [hpl]; rfl
      · show payload.getLast? = some d
        rw [hpl]
        exact List.getLast?_concat _
      · show fromLEBytes (List.take 8 (List.drop 1 payload)) = 10 ^ d
        rw [hpl]
        have hdrop : List.drop 1 ([12] ++ leBytes 8 (1 * 10 ^ d) ++ [d])
            = leBytes 8 (1 * 10 ^ d) ++ [d] := rfl
        have hA : (leBytes 8 (1 * 10 ^ d)).length = 8 := length_leBytes 8 _
        rw [hdrop, List.take_left' hA, fromLE_leBytes]
        have h256 : (256 : Nat) ^ 8 = 2 ^ 64 := by norm_num
        rw [one_mul] at h2 ⊢
        rw [h256]
        exact Nat.mod_eq_of_lt h2

/-- C6 witness: at 6 decimals the encoded raw amount is 1,000,000 and
the payload bytes are 12, 64, 66, 15, 0, 0, 0, 0, 0, 6. -/
theorem transfer_payload_layout_witness :
    (∃ t, ((build_instructions cfg0 (List.replicate 32 0) (List.replicate 32 1)
        (List.replicate 32 0) 6 true).getD []).getLast? = some t ∧
      t.data = [12] ++ leBytes 8 (10 ^ 6) ++ [6] ∧
      t.data.length = 10 ∧
      t.data.head? = some 12 ∧
      t.data.getLast? = some 6 ∧
      fromLEBytes (List.take 8 (List.drop 1 t.data)) = 10 ^ 6) ∧
    [(12 : Byte)] ++ leBytes 8 (10 ^ 6) ++ [6]
      = [12, 64, 66, 15, 0, 0, 0, 0, 0, 6] :=
  ⟨transfer_payload_layout cfg0 (List.replicate 32 0) (List.replicate 32 1)
      (List.replicate 32 0) 6 true
      ((build_instructions cfg0 (List.replicate 32 0) (List.replicate 32 1)
          (List.replicate 32 0) 6 true).getD []) rfl,
   by decide⟩

/-- C7: in a plan built with the receiver account absent, the create
instruction's account list is, in order: payer (signer, writable),
receiver ATA (writable), receiver owner (readonly), mint (readonly),
system program (readonly), token program (readonly), rent sysvar
(readonly), with empty payload; and the transfer instruction's account
list is: sender ATA (writable), mint (readonly), receiver ATA
(writable), payer as authority (signer, readonly). -/
theorem instruction_account_lists (cfg : Config) (rp s r : Pubkey) (d : Nat)
    (plan : List Instruction)
    (h : build_instructions cfg rp s r d false = some plan) :
    ∃ payload,
      plan = [create_ata_instruction cfg rp r, transfer_instruction cfg s r payload] ∧
      (create_ata_instruction cfg rp r).program_id = ASSOCIATED_TOKEN_PROGRAM_ID ∧
      (create_ata_instruction cfg rp r).accounts
        = [⟨cfg.AIRDROP_PUBKEY, true, true⟩, ⟨r, false, true⟩, ⟨rp, false, false⟩,
           ⟨cfg.MINT_ADDRESS, false, false⟩, ⟨SYSTEM_PROGRAM_ID, false, false⟩,
           ⟨TOKEN_2022_PROGRAM_ID, false, false⟩, ⟨RENT_SYSVAR_ID, false, false⟩] ∧
      (create_ata_instruction cfg rp r).data = [] ∧
      (transfer_instruction cfg s r payload).program_id = TOKEN_2022_PROGRAM_ID ∧
      (transfer_instruction cfg s r payload).accounts
        = [⟨s, false, true⟩, ⟨cfg.MINT_ADDRESS, false, false⟩, ⟨r, false, true⟩,
           ⟨cfg.AIRDROP_PUBKEY, true, false⟩] := by
  unfold build_instructions at h
  cases hpk : structPackBQB 12 (1 * 10 ^ d) d with
  | none => rw [hpk] at h; simp at h
  | some payload =>
      rw [hpk] at h
      simp only [Option.map_some'] at h
      cases h
      exact ⟨payload, rfl, rfl, rfl, rfl, rfl, rfl⟩

/-- C7 witness: the account lists at a concrete plan. -/
theorem instruction_account_lists_witness :
    ∃ payload,
      (build_instructions cfg0 (List.replicate 32 0) (List.replicate 32 1)
          (List.replicate 32 0) 6 false).getD []
        = [create_ata_instruction cfg0 (List.replicate 32 0) (List.replicate 32 0),
           transfer_instruction cfg0 (List.replicate 32 1) (List.replicate 32 0) payload] ∧
      (create_ata_instruction cfg0 (List.replicate 32 0) (List.replicate 32 0)).program_id
        = ASSOCIATED_TOKEN_PROGRAM_ID ∧
      (create_ata_instruction cfg0 (List.replicate 32 0) (List.replicate 32 0)).accounts
        = [⟨cfg0.AIRDROP_PUBKEY, true, true⟩, ⟨List.replicate 32 0, false, true⟩,
           ⟨List.replicate 32 0, false, false⟩, ⟨cfg0.MINT_ADDRESS, false, false⟩,
           ⟨SYSTEM_PROGRAM_ID, false, false⟩, ⟨TOKEN_2022_PROGRAM_ID, false, false⟩,
           ⟨RENT_SYSVAR_ID, false, false⟩] ∧
      (create_ata_instruction cfg0 (List.replicate 32 0) (List.replicate 32 0)).data = [] ∧
      (transfer_instruction cfg0 (List.replicate 32 1) (List.replicate 32 0) payload).program_id
        = TOKEN_2022_PROGRAM_ID ∧
      (transfer_instruction cfg0 (List.replicate 32 1) (List.replicate 32 0) payload).accounts
        = [⟨List.replicate 32 1, false, true⟩, ⟨cfg0.MINT_ADDRESS, false, false⟩,
           ⟨List.replicate 32 0, false, true⟩, ⟨cfg0.AIRDROP_PUBKEY, true, false⟩] :=
  instruction_account_lists cfg0 (List.replicate 32 0) (List.replicate 32 1)
    (List.replicate 32 0) 6
    ((build_instructions cfg0 (List.replicate 32 0) (List.replicate 32 1)
        (List.replicate 32 0) 6 false).getD []) rfl

end Airdrop
